import Mathlib

/-!
Verification of the reconciliation and import pipeline of the GEMINI spatial
harvesters (ckanext/spatial/harvesters/gemini.py).

The Python source is shallowly embedded: pure helpers become Lean functions,
the stateful import stage becomes explicit state passing over a `Store` of
harvest objects and packages, Python exceptions become explicit outcome
constructors, and Python 2 dynamic-typing quirks (mixed return types,
truthiness, `None` comparisons, `AttributeError`/`ValueError`) are modelled
with sum types and `Except`.
-/

namespace GeminiHarvest

/-! ## munge_tag (gemini.py lines 73-75)

`munge_tag(tag)` is
`re.sub(r'[^a-zA-Z0-9 -]', '', substitute_ascii_equivalents(tag).lower().strip()).replace(' ', '-')`.

Python 2 `str` values are byte strings, so tags are modelled as lists of byte
values (`List Nat`).  `substitute_ascii_equivalents` lives in ckan core
(outside this repository), so it is a parameter; the only fact used about it
is that it fixes strings already made of munged output characters.
-/

/-- Python 2 `str.strip()` whitespace set: space, tab, LF, CR, VT, FF. -/
def pyIsSpace (c : Nat) : Bool :=
  c = 32 || c = 9 || c = 10 || c = 13 || c = 11 || c = 12

/-- Python 2 `str.lower()` on a byte: lower-cases ASCII `A`-`Z` (65-90) only. -/
def pyLower (c : Nat) : Nat :=
  if 65 ≤ c && c ≤ 90 then c + 32 else c

/-- The character class `[a-zA-Z0-9 -]` kept by the `re.sub` of `munge_tag`. -/
def mungeKeep (c : Nat) : Bool :=
  (97 ≤ c && c ≤ 122) || (65 ≤ c && c ≤ 90) || (48 ≤ c && c ≤ 57) ||
    c = 32 || c = 45

/-- Python 2 `str.strip()` on a byte list. -/
def pyStrip (l : List Nat) : List Nat :=
  ((l.dropWhile pyIsSpace).reverse.dropWhile pyIsSpace).reverse

/-- `munge_tag` from gemini.py (lines 73-75), parametrised over the external
`substitute_ascii_equivalents` (ckan core). -/
def munge_tag (subst : List Nat → List Nat) (tag : List Nat) : List Nat :=
  ((pyStrip ((subst tag).map pyLower)).filter mungeKeep).map
    (fun c => if c = 32 then 45 else c)

/-- Characters that can appear in a `munge_tag` output:
`a`-`z` (97-122), `0`-`9` (48-57) and `-` (45). -/
def mungedOutChar (c : Nat) : Bool :=
  (97 ≤ c && c ≤ 122) || (48 ≤ c && c ≤ 57) || c = 45

lemma mem_pyStrip {l : List Nat} {c : Nat} (h : c ∈ pyStrip l) : c ∈ l := by
  unfold pyStrip at h
  rw [List.mem_reverse] at h
  have h2 := (List.dropWhile_sublist _).subset h
  rw [List.mem_reverse] at h2
  exact (List.dropWhile_sublist _).subset h2

lemma munge_tag_chars (subst : List Nat → List Nat) (tag : List Nat) :
    ∀ c ∈ munge_tag subst tag, mungedOutChar c = true := by
  intro c hc
  unfold munge_tag at hc
  rw [List.mem_map] at hc
  obtain ⟨c0, hc0, hceq⟩ := hc
  rw [List.mem_filter] at hc0
  obtain ⟨hmem, hkeep⟩ := hc0
  have hml : c0 ∈ (subst tag).map pyLower := mem_pyStrip hmem
  rw [List.mem_map] at hml
  obtain ⟨c1, _, hc1⟩ := hml
  have hnotup : ¬(65 ≤ c0 ∧ c0 ≤ 90) := by
    rw [← hc1]
    unfold pyLower
    split
    · rename_i h
      simp only [Bool.and_eq_true, decide_eq_true_eq] at h
      omega
    · rename_i h
      simp only [Bool.and_eq_true, decide_eq_true_eq, not_and] at h
      omega
  unfold mungeKeep at hkeep
  simp only [Bool.or_eq_true, Bool.and_eq_true, decide_eq_true_eq] at hkeep
  subst hceq
  unfold mungedOutChar
  simp only [Bool.or_eq_true, Bool.and_eq_true, decide_eq_true_eq]
  split
  · rename_i h32
    omega
  · rename_i h32
    omega

lemma dropWhile_eq_self_of_none {α} (p : α → Bool) (l : List α)
    (h : ∀ a ∈ l, p a = false) : l.dropWhile p = l := by
  cases l with
  | nil => rfl
  | cons a l =>
    rw [List.dropWhile_cons]
    simp [h a (List.mem_cons_self a l)]

lemma pyStrip_eq_self (l : List Nat) (h : ∀ c ∈ l, pyIsSpace c = false) :
    pyStrip l = l := by
  unfold pyStrip
  rw [dropWhile_eq_self_of_none _ _ h]
  rw [dropWhile_eq_self_of_none]
  · exact List.reverse_reverse l
  · intro c hc
    exact h c (List.mem_reverse.mp hc)

lemma map_eq_self_of {α} (f : α → α) (l : List α) (h : ∀ a ∈ l, f a = a) :
    l.map f = l := by
  induction l with
  | nil => rfl
  | cons a l ih =>
    rw [List.map_cons, h a (List.mem_cons_self a l),
      ih (fun b hb => h b (List.mem_cons_of_mem a hb))]

lemma mungedOut_not_space {c : Nat} (h : mungedOutChar c = true) :
    pyIsSpace c = false := by
  unfold mungedOutChar at h
  unfold pyIsSpace
  simp only [Bool.or_eq_true, Bool.and_eq_true, decide_eq_true_eq] at h
  simp only [Bool.or_eq_false_iff, decide_eq_false_iff_not]
  omega

lemma mungedOut_keep {c : Nat} (h : mungedOutChar c = true) :
    mungeKeep c = true := by
  unfold mungedOutChar at h
  unfold mungeKeep
  simp only [Bool.or_eq_true, Bool.and_eq_true, decide_eq_true_eq] at h ⊢
  omega

lemma mungedOut_lower {c : Nat} (h : mungedOutChar c = true) :
    pyLower c = c := by
  unfold mungedOutChar at h
  unfold pyLower
  simp only [Bool.or_eq_true, Bool.and_eq_true, decide_eq_true_eq] at h
  split
  · rename_i h2
    simp only [Bool.and_eq_true, decide_eq_true_eq] at h2
    omega
  · rfl

lemma mungedOut_not_32 {c : Nat} (h : mungedOutChar c = true) : c ≠ 32 := by
  unfold mungedOutChar at h
  simp only [Bool.or_eq_true, Bool.and_eq_true, decide_eq_true_eq] at h
  omega

/-- C9: `munge_tag` is idempotent, and its output only contains the byte
values of `a`-`z`, `0`-`9` and `-` (spaces having been replaced by hyphens) —
for any `substitute_ascii_equivalents` that fixes strings already made only
of those characters (the real one maps ASCII to itself). -/
theorem munge_tag_idempotent_and_charset
    (subst : List Nat → List Nat)
    (hsubst : ∀ l, (∀ c ∈ l, mungedOutChar c = true) → subst l = l)
    (tag : List Nat) :
    munge_tag subst (munge_tag subst tag) = munge_tag subst tag ∧
      ∀ c ∈ munge_tag subst tag, mungedOutChar c = true := by
  refine ⟨?_, munge_tag_chars subst tag⟩
  have hchars := munge_tag_chars subst tag
  set o := munge_tag subst tag with ho
  conv_lhs => rw [munge_tag]
  rw [hsubst o hchars]
  rw [map_eq_self_of pyLower o (fun c hc => mungedOut_lower (hchars c hc))]
  rw [pyStrip_eq_self o (fun c hc => mungedOut_not_space (hchars c hc))]
  rw [List.filter_eq_self.mpr (fun c hc => mungedOut_keep (hchars c hc))]
  apply map_eq_self_of
  intro c hc
  simp [mungedOut_not_32 (hchars c hc)]

/-- Witness for C9 at the concrete tag "Soil! Map". -/
theorem munge_tag_idempotent_and_charset_witness :
    munge_tag id (munge_tag id [83, 111, 105, 108, 33, 32, 77, 97, 112]) =
        munge_tag id [83, 111, 105, 108, 33, 32, 77, 97, 112] ∧
      ∀ c ∈ munge_tag id [83, 111, 105, 108, 33, 32, 77, 97, 112],
        mungedOutChar c = true :=
  munge_tag_idempotent_and_charset id (fun _ _ => rfl)
    [83, 111, 105, 108, 33, 32, 77, 97, 112]

/-! ## extent_template (gemini.py lines 306-308, used at lines 605-615)

The GeoJSON extent string is built with
`Template('... [[[$minx, $miny],[$minx, $maxy], [$maxx, $maxy], [$maxx, $miny], [$minx, $miny]]] ...')`
substituted at the call site with `minx = extras['bbox-east-long']`,
`miny = extras['bbox-south-lat']`, `maxx = extras['bbox-west-long']`,
`maxy = extras['bbox-north-lat']`.
-/

/-- The `extent_template` string of `GeminiHarvester` with its `$`-slots as
function arguments (gemini.py lines 306-308). -/
def extent_template (minx miny maxx maxy : String) : String :=
  "\n    \x7b\"type\":\"Polygon\",\"coordinates\":[[[" ++ minx ++ ", " ++ miny ++
    "],[" ++ minx ++ ", " ++ maxy ++ "], [" ++ maxx ++ ", " ++ maxy ++
    "], [" ++ maxx ++ ", " ++ miny ++ "], [" ++ minx ++ ", " ++ miny ++
    "]]]\x7d\n    "

/-- The four bounding-box values as read from the document. -/
structure BBox where
  eastLong : String
  northLat : String
  southLat : String
  westLong : String
deriving DecidableEq

/-- The call `self.extent_template.substitute(minx=..., miny=..., maxx=...,
maxy=...)` of gemini.py lines 606-611: `$minx` receives `bbox-east-long`,
`$miny` `bbox-south-lat`, `$maxx` `bbox-west-long`, `$maxy` `bbox-north-lat`. -/
def extentStringFromValues (b : BBox) : String :=
  extent_template b.eastLong b.southLat b.westLong b.northLat

/-- Claim-side view: the ring of vertices the template describes, as
(x, y) pairs in template slot terms. -/
def extentRing (minx miny maxx maxy : String) : List (String × String) :=
  [(minx, miny), (minx, maxy), (maxx, maxy), (maxx, miny), (minx, miny)]

/-- Render one `[x, y]` vertex. -/
def renderVertex : String × String → String
  | (x, y) => "[" ++ x ++ ", " ++ y ++ "]"

/-- Render a five-vertex ring with the template's exact separators. -/
def renderRing5 : List (String × String) → String
  | [v1, v2, v3, v4, v5] =>
      "\n    \x7b\"type\":\"Polygon\",\"coordinates\":[[" ++ renderVertex v1 ++
        "," ++ renderVertex v2 ++ ", " ++ renderVertex v3 ++ ", " ++
        renderVertex v4 ++ ", " ++ renderVertex v5 ++ "]]\x7d\n    "
  | _ => ""

/-- C8: the extent string the code builds is the rendering of a closed
five-vertex ring in which every `$minx` x-coordinate is the *east* longitude,
every `$maxx` x-coordinate is the *west* longitude, the `$miny`/`$maxy`
y-coordinates are south/north latitude, and the first vertex is repeated as
the last. -/
theorem extent_ring_east_as_minx_west_as_maxx (b : BBox) :
    extentStringFromValues b =
        renderRing5 (extentRing b.eastLong b.southLat b.westLong b.northLat) ∧
      (extentRing b.eastLong b.southLat b.westLong b.northLat).map Prod.fst =
        [b.eastLong, b.eastLong, b.westLong, b.westLong, b.eastLong] ∧
      (extentRing b.eastLong b.southLat b.westLong b.northLat).map Prod.snd =
        [b.southLat, b.northLat, b.northLat, b.southLat, b.southLat] ∧
      (extentRing b.eastLong b.southLat b.westLong b.northLat).head? =
        (extentRing b.eastLong b.southLat b.westLong b.northLat).getLast? := by
  refine ⟨?_, rfl, rfl, rfl⟩
  have m0 : ∀ X : String,
      "\n    \x7b\"type\":\"Polygon\",\"coordinates\":[[" ++ ("[" ++ X) =
        "\n    \x7b\"type\":\"Polygon\",\"coordinates\":[[[" ++ X := by
    intro X
    rw [← String.append_assoc]
    rfl
  have m1 : ∀ X : String, "]" ++ ("," ++ ("[" ++ X)) = "],[" ++ X := by
    intro X
    rw [← String.append_assoc, ← String.append_assoc]
    rfl
  have m2 : ∀ X : String, "]" ++ (", " ++ ("[" ++ X)) = "], [" ++ X := by
    intro X
    rw [← String.append_assoc, ← String.append_assoc]
    rfl
  have m3 : ("]" ++ "]]\x7d\n    " : String) = "]]]\x7d\n    " := rfl
  simp only [extentStringFromValues, extent_template, renderRing5, extentRing,
    renderVertex, String.append_assoc, m0, m1, m2, m3]

/-! ## _process_licence (gemini.py lines 800-854)

The three use-constraints inputs are split into the `licence`,
`licence_url` and `licence_url_title` extras.  Python dynamic typing is
kept: `extras['licence'] = free_text or ''` stores either a list or the
string `''`, and `extras['licence'].append(url)` on the string raises
`AttributeError`, modelled as `Except.error`.  The external
`urlparse`-based `_is_url` is a parameter. -/

/-- A member of the `urls` working list: either a bare URL string or the
`(anchor_href, anchor_title)` tuple. -/
inductive UrlEntry
  | plain (href : String)
  | pair (href title : String)
deriving DecidableEq

/-- The href of a `urls` entry. -/
def UrlEntry.href : UrlEntry → String
  | .plain h => h
  | .pair h _ => h

/-- The Python value stored in `extras['licence']`: a list of strings, or
the string `''` produced by `free_text or ''`. -/
inductive LicenceVal
  | str (s : String)
  | list (l : List String)
deriving DecidableEq

/-- The licence-related extras produced by `_process_licence`. -/
structure LicenceExtras where
  licence : LicenceVal
  licence_url : Option String
  licence_url_title : Option String
deriving DecidableEq

/-- Python truthiness of an optional string (`None` and `''` are falsy). -/
def optTruthy : Option String → Bool
  | none => false
  | some s => s ≠ ""

/-- `GeminiHarvester._process_licence` (gemini.py lines 800-854).
`Except.error ()` models the `AttributeError` raised by
`extras['licence'].append(...)` when `extras['licence']` is the string `''`. -/
def _process_licence (is_url : String → Bool) (use_constraints : List String)
    (anchor_href anchor_title : Option String) : Except Unit LicenceExtras :=
  let uc : List String :=
    if optTruthy anchor_title && use_constraints.isEmpty then
      [anchor_title.getD ""]
    else use_constraints
  let title2 : Option String :=
    if optTruthy anchor_title && use_constraints.isEmpty then none
    else anchor_title
  let urls : List UrlEntry :=
    (if optTruthy anchor_href then
      (if optTruthy title2 then
        [UrlEntry.pair (anchor_href.getD "") (title2.getD "")]
      else [UrlEntry.plain (anchor_href.getD "")])
    else []) ++ (uc.filter is_url).map UrlEntry.plain
  let free_text : List String := uc.filter (fun c => !(is_url c))
  let licence0 : LicenceVal :=
    if free_text.isEmpty then LicenceVal.str "" else LicenceVal.list free_text
  match urls with
  | [] => Except.ok ⟨licence0, none, none⟩
  | u :: rest =>
    let lu : Option String := some u.href
    let lut : Option String :=
      match u with
      | UrlEntry.plain _ => none
      | UrlEntry.pair _ t => some t
    if rest.isEmpty then Except.ok ⟨licence0, lu, lut⟩
    else
      match licence0 with
      | LicenceVal.str _ => Except.error ()
      | LicenceVal.list l =>
          Except.ok ⟨LicenceVal.list (l ++ rest.map UrlEntry.href), lu, lut⟩

/-- A concrete stand-in for the external `_is_url` (urlparse-based): both
URLs of the failing input satisfy it. -/
def looksHttp (s : String) : Bool := "http://".data.isPrefixOf s.data

/-- C7: at the failing input — an anchor href plus a use-constraints list
holding one URL and no free text — `_process_licence`
raises `AttributeError` (appending to the string `''`) instead of putting
the subsequent URL into the licence list as its own docstring promises. -/
theorem process_licence_crashes_on_second_url :
    _process_licence looksHttp ["http://example.com/more-terms"]
        (some "http://example.com/licence") none = Except.error () := by
  rfl

/-! ## _try_wms_url / _is_wms / _wms_base_urls (gemini.py lines 87-224)

The network, XML parsing and owslib calls are external; each `except` clause
of the source corresponds to one constructor of the environment types below.
`_try_wms_url` returns a Python bool on every path.  `_wms_base_urls` mixes
its return types: `(False, set())` on three error paths, bare `False` on two
others, `[]` on two more, and a set of URL strings on success — captured by
`BaseUrlsResult`. -/

/-- Outcome of the `urllib2.urlopen(capabilities_url, None, 10)` call. -/
inductive FetchOutcome
  | httpError
  | urlError
  | socketTimeout
  | httpException
  | ok (body : String)
deriving DecidableEq

/-- Outcome of parsing the 1.3 GetCapabilities response with lxml. -/
inductive Parse13Outcome
  | syntaxError
  | parsed (topTagIsWmsCapabilities : Bool) (hasServiceException : Bool)
deriving DecidableEq

/-- Outcome of `owslib_wms.WebMapService(url, xml=xml)` on the 1.1.1 path. -/
inductive OwslibOutcome
  | attributeError
  | syntaxError
  | serviceException
  | socketTimeout
  | parsed (contentsIsNonEmptyDict : Bool)
deriving DecidableEq

/-- Everything external that one `_try_wms_url` call can observe. -/
structure WmsCheckEnv where
  fetch : FetchOutcome
  parse13 : Parse13Outcome
  owslib : OwslibOutcome
  uncaughtException : Bool
deriving DecidableEq

/-- `str.strip()`-falsiness of the response body (`if not xml.strip()`),
on the body's bytes. -/
def pyBlank (l : List Nat) : Bool := (pyStrip l).isEmpty

/-- `SpatialHarvester._try_wms_url` (gemini.py lines 100-167), as a function
of the external observations.  The outer `except Exception` is modelled by
`uncaughtException`. -/
def _try_wms_url (env : WmsCheckEnv) (bodyBytes : String → List Nat)
    (version : String) : Bool :=
  if env.uncaughtException then false
  else
    match env.fetch with
    | FetchOutcome.httpError => false
    | FetchOutcome.urlError => false
    | FetchOutcome.socketTimeout => false
    | FetchOutcome.httpException => false
    | FetchOutcome.ok body =>
      if pyBlank (bodyBytes body) then false
      else if version = "1.1.1" then
        match env.owslib with
        | OwslibOutcome.attributeError => false
        | OwslibOutcome.syntaxError => false
        | OwslibOutcome.serviceException => false
        | OwslibOutcome.socketTimeout => false
        | OwslibOutcome.parsed nonEmpty => nonEmpty
      else
        match env.parse13 with
        | Parse13Outcome.syntaxError => false
        | Parse13Outcome.parsed topOk hasSE =>
          if !topOk then false
          else if hasSE then false
          else true

/-- `SpatialHarvester._is_wms` (gemini.py lines 87-98): try 1.3, then fall
back to 1.1.1.  The two requests can observe different environments. -/
def _is_wms (env13 env111 : WmsCheckEnv) (bodyBytes : String → List Nat) :
    Bool :=
  let is_wms := _try_wms_url env13 bodyBytes "1.3"
  if !is_wms then _try_wms_url env111 bodyBytes "1.1.1" else is_wms

/-- The Python value returned by `_wms_base_urls`: the source returns
`(False, set())` on the HTTPError/URLError/timeout paths, bare `False` on the
HTTPException and uncaught-exception paths, `[]` on the parse-error and
not-a-WMS paths, and a set of base URLs on success. -/
inductive BaseUrlsResult
  | pairFalseEmptySet
  | boolFalse
  | emptyList
  | urlSet (urls : List String)
deriving DecidableEq

/-- Everything external that one `_wms_base_urls` call can observe. -/
structure BaseUrlsEnv where
  fetch : FetchOutcome
  parseOk : Bool
  strContainsWms : Bool
  hrefs : List String
  uncaughtException : Bool
deriving DecidableEq

/-- `SpatialHarvester._wms_base_urls` (gemini.py lines 170-224).  On success
each truthy href is cut at its first `?` and collected into a set. -/
def _wms_base_urls (env : BaseUrlsEnv) : BaseUrlsResult :=
  if env.uncaughtException then BaseUrlsResult.boolFalse
  else
    match env.fetch with
    | FetchOutcome.httpError => BaseUrlsResult.pairFalseEmptySet
    | FetchOutcome.urlError => BaseUrlsResult.pairFalseEmptySet
    | FetchOutcome.socketTimeout => BaseUrlsResult.pairFalseEmptySet
    | FetchOutcome.httpException => BaseUrlsResult.boolFalse
    | FetchOutcome.ok _ =>
      if !env.parseOk then BaseUrlsResult.emptyList
      else if !env.strContainsWms then BaseUrlsResult.emptyList
      else
        BaseUrlsResult.urlSet
          (((env.hrefs.filter (fun u => u ≠ "")).map
            (fun u => (u.splitOn "?").headD u)).dedup)

/-- Whether a `_wms_base_urls` return value is an empty collection of URLs. -/
def isEmptyUrlCollection : BaseUrlsResult → Bool
  | BaseUrlsResult.emptyList => true
  | BaseUrlsResult.urlSet l => l.isEmpty
  | BaseUrlsResult.pairFalseEmptySet => false
  | BaseUrlsResult.boolFalse => false

/-- C6: at the failing input — a URL whose GetCapabilities request answers
with an HTTP error status — `_wms_base_urls` returns the tuple
`(False, set())`, which is not an empty collection of URLs (the caller's
`' '.join(base_urls)` would raise `TypeError`); the HTTPException and
uncaught-exception paths return bare `False`.  `_try_wms_url` does return
the boolean `False` on that same error. -/
theorem wms_base_urls_error_path_not_a_collection :
    _wms_base_urls ⟨FetchOutcome.httpError, true, true, [], false⟩ =
        BaseUrlsResult.pairFalseEmptySet ∧
      isEmptyUrlCollection BaseUrlsResult.pairFalseEmptySet = false ∧
      _wms_base_urls ⟨FetchOutcome.httpException, true, true, [], false⟩ =
        BaseUrlsResult.boolFalse ∧
      _wms_base_urls ⟨FetchOutcome.ok "", true, true, [], true⟩ =
        BaseUrlsResult.boolFalse ∧
      _try_wms_url ⟨FetchOutcome.httpError, Parse13Outcome.syntaxError,
        OwslibOutcome.syntaxError, false⟩ (fun s => s.data.map Char.toNat)
        "1.3" = false := by
  refine ⟨rfl, rfl, rfl, rfl, rfl⟩

/-! ## _match_resources_with_existing_ones (gemini.py lines 998-1034)

`find_matches` iterates `unmatched_res_dicts` and, inside, the
`unmatched_existing_res_dicts` list, removing from both while iterating
(CPython iterates by index, so a removal skips the following element) and
never breaking out of the inner loop after a match.  `list.remove` removes
the first element equal by content and raises `ValueError` when none is
left.  Mutation of a `res_dict` in place is modelled by indices into a
`resources` list; removal compares current content, as Python `==` does. -/

/-- A new resource dict, restricted to the fields the matching consults
(`url` is always present; `name`/`description` via `.get`). -/
structure ResDict where
  url : String
  name : Option String
  description : Option String
  rid : Option String
deriving DecidableEq, Inhabited, Repr

/-- An existing resource of the package (`id`, `url`, `name`,
`description`). -/
structure ExistingRes where
  rid : String
  url : String
  name : String
  description : String
deriving DecidableEq, Inhabited, Repr

/-- Python `res1.get(k) == res2[k]` where the left side may be `None`. -/
def optEqStr : Option String → String → Bool
  | none, _ => false
  | some t, s => t = s

/-- First matching pass: url, name and description all equal. -/
def matchPass1 (r : ResDict) (e : ExistingRes) : Bool :=
  r.url = e.url && optEqStr r.name e.name && optEqStr r.description e.description

/-- Second matching pass: url alone. -/
def matchPass2 (r : ResDict) (e : ExistingRes) : Bool :=
  r.url = e.url

/-- Python `list.remove(x)` on the index list `unmatched_res_dicts`: drop
the first index whose current dict content equals the target; `none` models
the `ValueError` when no element is equal. -/
def removeResIdx (resources : List ResDict) (target : ResDict) :
    List Nat → Option (List Nat)
  | [] => none
  | j :: rest =>
    if resources.getD j default = target then some rest
    else
      match removeResIdx resources target rest with
      | none => none
      | some r => some (j :: r)

/-- Error outcomes of the matching: the `ValueError` from `list.remove`, or
exhausted modelling fuel (never reached with the fuel supplied below). -/
inductive MatchErr
  | valueError
  | fuelOut
deriving DecidableEq, Repr

/-- State threaded through `find_matches`: the `res_dicts` (mutated in
place), and the two unmatched working lists. -/
structure MatchState where
  resources : List ResDict
  unmatchedRes : List Nat
  unmatchedExisting : List ExistingRes
deriving DecidableEq, Repr

/-- The inner `for existing_res_dict in unmatched_existing_res_dicts` loop
of `find_matches`, iterating by index `i` over the mutating list.  On a
match: assign the id, remove the existing entry (first equal element), and
remove the res dict from `unmatched_res_dicts` (first equal element,
`ValueError` if absent) — and keep iterating, as the source does. -/
def innerLoop (f : ResDict → ExistingRes → Bool) (resIdx : Nat) :
    Nat → Nat → MatchState → Except MatchErr MatchState
  | 0, _, _ => Except.error MatchErr.fuelOut
  | fuel + 1, i, st =>
    match st.unmatchedExisting.get? i with
    | none => Except.ok st
    | some e =>
      let r := st.resources.getD resIdx default
      if f r e then
        let r2 := { r with rid := some e.rid }
        let resources2 := st.resources.set resIdx r2
        let unmatchedExisting2 := st.unmatchedExisting.erase e
        match removeResIdx resources2 r2 st.unmatchedRes with
        | none => Except.error MatchErr.valueError
        | some unmatchedRes2 =>
            innerLoop f resIdx fuel (i + 1)
              ⟨resources2, unmatchedRes2, unmatchedExisting2⟩
      else innerLoop f resIdx fuel (i + 1) st

/-- The outer `for res_dict in unmatched_res_dicts` loop of `find_matches`,
iterating by index `k` over the mutating list. -/
def outerLoop (f : ResDict → ExistingRes → Bool) :
    Nat → Nat → MatchState → Except MatchErr MatchState
  | 0, _, _ => Except.error MatchErr.fuelOut
  | fuel + 1, k, st =>
    match st.unmatchedRes.get? k with
    | none => Except.ok st
    | some resIdx =>
      match innerLoop f resIdx (st.unmatchedExisting.length + 1) 0 st with
      | Except.error e => Except.error e
      | Except.ok st2 => outerLoop f fuel (k + 1) st2

/-- One `find_matches(match_func)` call. -/
def find_matches (f : ResDict → ExistingRes → Bool) (st : MatchState) :
    Except MatchErr MatchState :=
  outerLoop f (st.unmatchedRes.length + 1) 0 st

/-- `GeminiHarvester._match_resources_with_existing_ones` (gemini.py lines
998-1034): pass 1 on (url, name, description), then pass 2 on url alone;
returns the res dicts with ids assigned, or the propagated `ValueError`. -/
def _match_resources_with_existing_ones (res_dicts : List ResDict)
    (existing_resources : List ExistingRes) : Except MatchErr (List ResDict) :=
  let st0 : MatchState :=
    ⟨res_dicts, List.range res_dicts.length, existing_resources⟩
  match find_matches matchPass1 st0 with
  | Except.error e => Except.error e
  | Except.ok st1 =>
    match find_matches matchPass2 st1 with
    | Except.error e => Except.error e
    | Except.ok st2 => Except.ok st2.resources

/-- C10: at the failing input — one new resource whose url equals the url of
the first and third of three existing resources (no full pass-1 match) — the
inner loop matches the new dict twice: the second match overwrites the first
assigned id and the second `unmatched_res_dicts.remove` raises `ValueError`,
so the matching is not injective and the import crashes. -/
theorem match_resources_raises_value_error :
    _match_resources_with_existing_ones
        [⟨"http://u", some "n0", some "d0", none⟩]
        [⟨"id1", "http://u", "n1", "d1"⟩, ⟨"id2", "http://v", "n2", "d2"⟩,
          ⟨"id3", "http://u", "n3", "d3"⟩] =
      Except.error MatchErr.valueError := by
  rfl

/-! ## The reconciliation core
(gemini.py `GeminiHarvester.import_gemini_object`, lines 351-418, and
`GeminiHarvester.write_package_from_gemini_string`, lines 420-753)

The persistent state is a `Store` of harvest objects and packages.  The
field extraction, name generation and resource construction that do not
affect the decision logic are abstracted to the fields the decisions read.
Dates are the parsed `metadata-date`, as `Option Int` (the column is
nullable).  Python 2 compares `None < datetime` as true, see `pyLtDate`.
`ImportAbort` and the `AttributeError` on a missing package become explicit
outcome constructors; on those outcomes the store is unchanged (the early
save of `metadata_modified_date` at line 453 touches no `current` flag or
package and is not modelled). -/

/-- A row of the harvest-object table, with its source's
`publisher`/`active` fields denormalised onto it. -/
structure HObj where
  oid : Nat
  guid : String
  jobId : Nat
  current : Bool
  packageId : Option Nat
  metadataModifiedDate : Option Int
  content : String
  sourceActive : Bool
deriving DecidableEq, Repr

/-- A package (catalog entry), restricted to the fields the decisions read. -/
structure Pkg where
  pid : Nat
  ownerOrg : Option Nat
  state : String
  title : String
deriving DecidableEq, Repr

/-- The persistent store: harvest objects and packages. -/
structure Store where
  objs : List HObj
  pkgs : List Pkg
deriving DecidableEq, Repr

/-- The attempt being imported (`self.obj`), with its source's publisher and
active flag. -/
structure NewObj where
  oid : Nat
  guid : String
  jobId : Nat
  packageId : Option Nat
  content : String
  sourcePublisherId : Option Nat
  sourceActive : Bool
deriving DecidableEq, Repr

/-- The extracted document values the decision logic reads.  `metadataDate`
is the result of the two `strptime` attempts: `none` when neither format
parses. -/
structure GeminiValues where
  resourceType : String
  bboxNorthLat : String
  bboxSouthLat : String
  bboxWestLong : String
  bboxEastLong : String
  metadataDate : Option Int
  title : String
deriving DecidableEq, Repr

/-- The reason carried by each `raise ImportAbort` of the import path. -/
inductive AbortReason
  | validationFailed
  | zeroAreaExtent
  | badDate
  | multipleCurrent
  | usedTwiceInHarvest
  | guidCollisionDifferentTitle
  | publisherTransfer
  | contentChangedDateNot
deriving DecidableEq, Repr

/-- Result of one `write_package_from_gemini_string` call: an
`ImportAbort`, an uncaught exception (`package` attribute of a harvest
object with no package), a skip (`return None`), or a successful
create/update with the new store. -/
inductive Outcome
  | abort (r : AbortReason)
  | systemError
  | skip
  | success (created : Bool) (reactivated : Bool) (st : Store)
deriving DecidableEq, Repr

/-- The query of lines 481-484: harvest objects with this GUID and
`current==True`. -/
def currentsFor (st : Store) (guid : String) : List HObj :=
  st.objs.filter (fun o => o.guid = guid && o.current)

/-- `harvest_object.package`: resolve an optional package id in the store. -/
def findPkg (pkgs : List Pkg) : Option Nat → Option Pkg
  | none => none
  | some p => pkgs.find? (fun q => q.pid = p)

/-- Python 2 `a < b` where `a` may be `None`: `None` sorts below any
datetime. -/
def pyLtDate (a : Option Int) (b : Int) : Bool :=
  match a with
  | none => true
  | some x => decide (x < b)

/-- A package id unused by the store (the fresh uuid of
`_create_package_from_data`). -/
def freshPid (st : Store) : Nat := (st.pkgs.map Pkg.pid).foldr max 0 + 1

/-- The bulk `UPDATE ... SET current=False WHERE package_id = :pkgId` of
lines 729-734, applied to one row. -/
def clearCurrent (pkgId : Nat) (o : HObj) : HObj :=
  if o.packageId = some pkgId then { o with current := false } else o

/-- The attempt's row as saved at lines 744-748: `current=True`, and
`package_id` filled with the written package id when it was unset. -/
def successObj (obj : NewObj) (newDate : Int) (pkgId : Nat) : HObj :=
  ⟨obj.oid, obj.guid, obj.jobId, true,
    (match obj.packageId with
     | some p => some p
     | none => some pkgId), some newDate, obj.content, obj.sourceActive⟩

/-- Lines 728-748: flag every harvest object sharing the written package id
as not current, then save this attempt with `current=True` and (when unset)
`package_id`.  The attempt's own old row, if present, is replaced. -/
def applySuccess (st : Store) (obj : NewObj) (newDate : Int) (pkgId : Nat)
    (pkgs2 : List Pkg) : Store :=
  ⟨(st.objs.map (clearCurrent pkgId)).filter (fun o => o.oid ≠ obj.oid) ++
    [successObj obj newDate pkgId], pkgs2⟩

/-- The create path (line 565 onwards with `package is None`): a fresh
package is created and the attempt becomes current. -/
def createPath (st : Store) (obj : NewObj) (gv : GeminiValues)
    (newDate : Int) : Outcome :=
  let pid := freshPid st
  Outcome.success true false
    (applySuccess st obj newDate pid
      (st.pkgs ++ [⟨pid, obj.sourcePublisherId, "active", gv.title⟩]))

/-- The update path (package exists): the package is updated in place
(reactivated when flagged) and the attempt becomes current. -/
def updatePath (st : Store) (obj : NewObj) (gv : GeminiValues)
    (newDate : Int) (pkg : Pkg) (reactivate : Bool) : Outcome :=
  let pkg2 : Pkg :=
    ⟨pkg.pid,
      (match obj.sourcePublisherId with
       | some p => some p
       | none => pkg.ownerOrg),
      (if reactivate then "active" else pkg.state), gv.title⟩
  Outcome.success false reactivate
    (applySuccess st obj newDate pkg.pid
      (st.pkgs.map (fun q => if q.pid = pkg.pid then pkg2 else q)))

/-- `GeminiHarvester.write_package_from_gemini_string` (gemini.py lines
420-753), as a function of the store, the `force_import` flag, the attempt
and the extracted document values. -/
def write_package_from_gemini_string (st : Store) (force_import : Bool)
    (obj : NewObj) (gv : GeminiValues) : Outcome :=
  if gv.resourceType ≠ "nonGeographicDataset" ∧
      (gv.bboxNorthLat = gv.bboxSouthLat ∨ gv.bboxWestLong = gv.bboxEastLong) then
    Outcome.abort AbortReason.zeroAreaExtent
  else
    match gv.metadataDate with
    | none => Outcome.abort AbortReason.badDate
    | some newDate =>
      match currentsFor st obj.guid with
      | [] => createPath st obj gv newDate
      | _ :: _ :: _ => Outcome.abort AbortReason.multipleCurrent
      | [last] =>
        if last.jobId = obj.jobId ∧ force_import = false then
          Outcome.abort AbortReason.usedTwiceInHarvest
        else
          match findPkg st.pkgs last.packageId with
          | none => Outcome.systemError
          | some pkg =>
            if pkg.ownerOrg ≠ obj.sourcePublisherId ∧ pkg.state ≠ "deleted" then
              if pkg.title ≠ gv.title then
                Outcome.abort AbortReason.guidCollisionDifferentTitle
              else
                Outcome.abort AbortReason.publisherTransfer
            else
              if last.metadataModifiedDate = none ∨
                  pyLtDate last.metadataModifiedDate newDate = true ∨
                  force_import = true ∨
                  (last.metadataModifiedDate = some newDate ∧
                    last.sourceActive = false) then
                if pkg.state = "deleted" then
                  if pyLtDate last.metadataModifiedDate newDate = true then
                    updatePath st obj gv newDate pkg true
                  else
                    Outcome.skip
                else
                  updatePath st obj gv newDate pkg false
              else
                if obj.content ≠ last.content ∧
                    last.metadataModifiedDate = some newDate then
                  Outcome.abort AbortReason.contentChangedDateNot
                else
                  Outcome.skip

/-- The Python value configured under `skip-responsible-party`: absent, a
single name, or a list of names. -/
inductive SkipConfigVal
  | noneV
  | strV (s : String)
  | listV (l : List String)
deriving DecidableEq, Repr

/-- Python truthiness of the configured value. -/
def skipTruthy : SkipConfigVal → Bool
  | SkipConfigVal.noneV => false
  | SkipConfigVal.strV s => s ≠ ""
  | SkipConfigVal.listV l => !l.isEmpty

/-- The `to_skip` list: a bare string is wrapped into a one-element list. -/
def skipNames : SkipConfigVal → List String
  | SkipConfigVal.noneV => []
  | SkipConfigVal.strV s => [s]
  | SkipConfigVal.listV l => l

/-- The set of organisation names the source configuration excludes.  A
falsy configured value (absent, `''` or `[]`) excludes nothing, mirroring
the `if source_config.get('skip-responsible-party'):` truthiness guard. -/
def exclusionSet (v : SkipConfigVal) : List String :=
  if skipTruthy v then skipNames v else []

/-- How many errors a `write_package_from_gemini_string` outcome causes to
be recorded against the attempt (aborts and system errors are recorded by
`import_stage` via `_save_object_error`). -/
def errorsOfOutcome : Outcome → Nat
  | Outcome.abort _ => 1
  | Outcome.systemError => 1
  | _ => 0

/-- The observable result of `import_gemini_object` for one attempt. -/
structure ImportResult where
  outcome : Outcome
  validationPerformed : Bool
  errorsRecorded : Nat
deriving DecidableEq, Repr

/-- `GeminiHarvester.import_gemini_object` (gemini.py lines 351-418) plus
the error recording of `import_stage`: the responsible-party skip check runs
first and returns without validating; then the validator runs (its verdict
is the external input `validator`), aborting on an invalid document only
when `ckan.spatial.validator.reject` is configured, recording a non-fatal
error otherwise; then the package is written. -/
def import_gemini_object (skipConfig : SkipConfigVal)
    (responsibleOrgNames : List String) (validator : Bool)
    (rejectOnInvalid : Bool) (st : Store) (force_import : Bool)
    (obj : NewObj) (gv : GeminiValues) : ImportResult :=
  if skipTruthy skipConfig = true ∧
      (skipNames skipConfig).inter responsibleOrgNames ≠ [] then
    ⟨Outcome.skip, false, 0⟩
  else
    if validator = false then
      if rejectOnInvalid then
        ⟨Outcome.abort AbortReason.validationFailed, true, 1⟩
      else
        let o := write_package_from_gemini_string st force_import obj gv
        ⟨o, true, 1 + errorsOfOutcome o⟩
    else
      let o := write_package_from_gemini_string st force_import obj gv
      ⟨o, true, errorsOfOutcome o⟩

/-! ## C1: the zero-or-one-current invariant -/

/-- The store an outcome leaves behind: aborts, system errors and skips
leave it unchanged. -/
def resultStore : Outcome → Store → Store
  | Outcome.success _ _ s, _ => s
  | Outcome.abort _, st => st
  | Outcome.systemError, st => st
  | Outcome.skip, st => st

/-- At most one harvest object per GUID is current. -/
def atMostOneCurrent (st : Store) : Prop :=
  ∀ g : String, (currentsFor st g).length ≤ 1

/-- One import operation: the store `write_package_from_gemini_string`
leaves behind. -/
def importStep (st : Store) (op : Bool × NewObj × GeminiValues) : Store :=
  resultStore (write_package_from_gemini_string st op.1 op.2.1 op.2.2) st

/-- A sequence of import operations applied to the store. -/
def runImports (st : Store) (ops : List (Bool × NewObj × GeminiValues)) :
    Store :=
  ops.foldl importStep st

lemma length_filter_le_of_imp {α} (p q : α → Bool)
    (h : ∀ a, p a = true → q a = true) (l : List α) :
    (l.filter p).length ≤ (l.filter q).length := by
  induction l with
  | nil => simp
  | cons a l ih =>
    rw [List.filter_cons, List.filter_cons]
    by_cases hpa : p a = true
    · rw [if_pos hpa, if_pos (h a hpa)]
      simpa using ih
    · rw [if_neg hpa]
      split
      · exact Nat.le_succ_of_le ih
      · exact ih

lemma length_filter_map {α β} (f : α → β) (r : β → Bool) (l : List α) :
    ((l.map f).filter r).length = (l.filter (fun a => r (f a))).length := by
  induction l with
  | nil => rfl
  | cons a l ih =>
    rw [List.map_cons, List.filter_cons, List.filter_cons]
    split
    · simpa using ih
    · exact ih

lemma mem_currentsFor {st : Store} {g : String} {o : HObj} :
    o ∈ currentsFor st g ↔ o ∈ st.objs ∧ o.guid = g ∧ o.current = true := by
  unfold currentsFor
  rw [List.mem_filter]
  simp

lemma clearCurrent_elim {pkgId : Nat} {a : HObj} {g : String}
    (h : (decide ((clearCurrent pkgId a).guid = g) &&
      (clearCurrent pkgId a).current) = true) :
    clearCurrent pkgId a = a ∧ a.guid = g ∧ a.current = true ∧
      ¬(a.packageId = some pkgId) := by
  simp only [Bool.and_eq_true, decide_eq_true_eq] at h
  by_cases hp : a.packageId = some pkgId
  · exfalso
    have hfa : clearCurrent pkgId a = { a with current := false } := by
      simp [clearCurrent, hp]
    rw [hfa] at h
    exact Bool.false_ne_true h.2
  · have hfa : clearCurrent pkgId a = a := by
      simp [clearCurrent, hp]
    rw [hfa] at h
    exact ⟨hfa, h.1, h.2, hp⟩

/-- After `applySuccess`, provided every current object with the attempt's
GUID either shares the written package id or is the attempt's own old row,
the store again has at most one current object per GUID. -/
lemma applySuccess_atMostOne (st : Store) (obj : NewObj) (newDate : Int)
    (pkgId : Nat) (pkgs2 : List Pkg)
    (hinv : atMostOneCurrent st)
    (hcur : ∀ o ∈ st.objs, o.guid = obj.guid → o.current = true →
      o.packageId = some pkgId ∨ o.oid = obj.oid) :
    atMostOneCurrent (applySuccess st obj newDate pkgId pkgs2) := by
  intro g
  show (List.filter _ (_ ++ [successObj obj newDate pkgId])).length ≤ 1
  rw [List.filter_append, List.length_append]
  have hbody : ((((st.objs.map (clearCurrent pkgId)).filter
      (fun o => decide (o.oid ≠ obj.oid))).filter
        (fun o => decide (o.guid = g) && o.current))).length ≤
      (currentsFor st g).length := by
    calc ((((st.objs.map (clearCurrent pkgId)).filter
        (fun o => decide (o.oid ≠ obj.oid))).filter
          (fun o => decide (o.guid = g) && o.current))).length
        ≤ (((st.objs.map (clearCurrent pkgId))).filter
            (fun o => decide (o.guid = g) && o.current)).length :=
          ((List.filter_sublist _).filter _).length_le
      _ = (st.objs.filter (fun a =>
            decide ((clearCurrent pkgId a).guid = g) &&
              (clearCurrent pkgId a).current)).length :=
          length_filter_map _ _ _
      _ ≤ (st.objs.filter (fun o => decide (o.guid = g) && o.current)).length := by
          apply length_filter_le_of_imp
          intro a ha
          obtain ⟨_, hguid, hcurr, _⟩ := clearCurrent_elim ha
          simp [hguid, hcurr]
  by_cases hg : g = obj.guid
  · subst hg
    have hzero : (((st.objs.map (clearCurrent pkgId)).filter
        (fun o => decide (o.oid ≠ obj.oid))).filter
          (fun o => decide (o.guid = obj.guid) && o.current)) = [] := by
      rw [List.filter_eq_nil_iff]
      intro x hx
      rw [List.mem_filter] at hx
      obtain ⟨hxm, hQ⟩ := hx
      rw [List.mem_map] at hxm
      obtain ⟨a, ha, rfl⟩ := hxm
      intro hP
      obtain ⟨hfa, hguid, hcurr, hnp⟩ := clearCurrent_elim hP
      rw [hfa] at hQ
      simp only [decide_eq_true_eq] at hQ
      rcases hcur a ha hguid hcurr with h | h
      · exact hnp h
      · exact hQ h
    rw [hzero]
    simp [successObj, List.filter_cons]
  · have hone : (List.filter (fun o => decide (o.guid = g) && o.current)
        [successObj obj newDate pkgId]).length = 0 := by
      simp only [successObj, List.filter_cons, List.filter_nil]
      split
      · rename_i h
        simp only [Bool.and_eq_true, decide_eq_true_eq] at h
        exact absurd h.1.symm hg
      · rfl
    rw [hone]
    calc _ + 0 ≤ (currentsFor st g).length := by
          simpa using hbody
      _ ≤ 1 := hinv g

lemma update_hcur (st : Store) (obj : NewObj) (last : HObj) (pkg : Pkg)
    (heqc : currentsFor st obj.guid = [last])
    (hfind : findPkg st.pkgs last.packageId = some pkg) :
    ∀ o ∈ st.objs, o.guid = obj.guid → o.current = true →
      o.packageId = some pkg.pid ∨ o.oid = obj.oid := by
  intro o ho hg hc
  have hmem : o ∈ currentsFor st obj.guid := mem_currentsFor.mpr ⟨ho, hg, hc⟩
  rw [heqc, List.mem_singleton] at hmem
  subst hmem
  left
  cases hlpid : o.packageId with
  | none =>
    rw [hlpid] at hfind
    exact absurd hfind (by simp [findPkg])
  | some p =>
    rw [hlpid] at hfind
    unfold findPkg at hfind
    have hp := List.find?_some hfind
    simp only [decide_eq_true_eq] at hp
    rw [hp]

lemma importStep_atMostOne (st : Store) (force_import : Bool) (obj : NewObj)
    (gv : GeminiValues) (hinv : atMostOneCurrent st) :
    atMostOneCurrent
      (resultStore (write_package_from_gemini_string st force_import obj gv)
        st) := by
  unfold write_package_from_gemini_string
  split
  · exact hinv
  · split
    · exact hinv
    · rename_i newDate hdate
      split
      · rename_i heqc
        apply applySuccess_atMostOne _ _ _ _ _ hinv
        intro o ho hg hc
        exfalso
        have hmem : o ∈ currentsFor st obj.guid :=
          mem_currentsFor.mpr ⟨ho, hg, hc⟩
        rw [heqc] at hmem
        exact absurd hmem (List.not_mem_nil o)
      · exact hinv
      · rename_i last heqc
        split
        · exact hinv
        · split
          · exact hinv
          · rename_i pkg hfind
            split
            · split
              · exact hinv
              · exact hinv
            · split
              · split
                · split
                  · exact applySuccess_atMostOne _ _ _ _ _ hinv
                      (update_hcur st obj last pkg heqc hfind)
                  · exact hinv
                · exact applySuccess_atMostOne _ _ _ _ _ hinv
                    (update_hcur st obj last pkg heqc hfind)
              · split
                · exact hinv
                · exact hinv

/-- C1: after any sequence of import operations on the store, at most one
harvest object per GUID (identity) is current: every successful import
first clears the current flag of all objects sharing the written package
id — which, the prior current object's package having been looked up by
that very id, covers it — then marks the new attempt current, and every
other outcome leaves the store unchanged. -/
theorem current_invariant_preserved (st : Store)
    (ops : List (Bool × NewObj × GeminiValues))
    (hinv : atMostOneCurrent st) :
    atMostOneCurrent (runImports st ops) := by
  induction ops generalizing st with
  | nil => exact hinv
  | cons op ops ih =>
    exact ih _ (importStep_atMostOne st op.1 op.2.1 op.2.2 hinv)

/-- Witness for C1: a create on the empty store. -/
theorem current_invariant_preserved_witness :
    atMostOneCurrent (runImports ⟨[], []⟩
      [(false, ⟨1, "guid-1", 1, none, "c", none, true⟩,
        ⟨"dataset", "51", "50", "-1", "0", some 7, "T"⟩)]) :=
  current_invariant_preserved ⟨[], []⟩ _ (fun _ => Nat.zero_le 1)

/-! ## C4: zero-area extents are always rejected -/

/-- C4: any parsed document whose resource type is not
`nonGeographicDataset` and whose bounding box has `north = south` or
`west = east` is rejected with the zero-area `ImportAbort`, whatever the
other fields and the store, and the store is unchanged. -/
theorem zero_area_extent_always_aborts (st : Store) (force_import : Bool)
    (obj : NewObj) (gv : GeminiValues)
    (h1 : gv.resourceType ≠ "nonGeographicDataset")
    (h2 : gv.bboxNorthLat = gv.bboxSouthLat ∨
      gv.bboxWestLong = gv.bboxEastLong) :
    write_package_from_gemini_string st force_import obj gv =
        Outcome.abort AbortReason.zeroAreaExtent ∧
      resultStore (write_package_from_gemini_string st force_import obj gv)
        st = st := by
  have habort : write_package_from_gemini_string st force_import obj gv =
      Outcome.abort AbortReason.zeroAreaExtent := by
    unfold write_package_from_gemini_string
    rw [if_pos ⟨h1, h2⟩]
  refine ⟨habort, ?_⟩
  rw [habort]
  rfl

/-- Witness for C4: a degenerate box with `north = south`. -/
theorem zero_area_extent_always_aborts_witness :
    write_package_from_gemini_string ⟨[], []⟩ false
        ⟨1, "guid-1", 1, none, "c", none, true⟩
        ⟨"dataset", "50", "50", "-1", "0", some 7, "T"⟩ =
        Outcome.abort AbortReason.zeroAreaExtent ∧
      resultStore
        (write_package_from_gemini_string ⟨[], []⟩ false
          ⟨1, "guid-1", 1, none, "c", none, true⟩
          ⟨"dataset", "50", "50", "-1", "0", some 7, "T"⟩) ⟨[], []⟩ =
        ⟨[], []⟩ :=
  zero_area_extent_always_aborts ⟨[], []⟩ false
    ⟨1, "guid-1", 1, none, "c", none, true⟩
    ⟨"dataset", "50", "50", "-1", "0", some 7, "T"⟩
    (by decide) (Or.inl rfl)

/-! ## C3: the responsible-party exclusion check precedes validation -/

/-- C3: when the document's responsible-organisation names intersect the
configured exclusion set, `import_gemini_object` skips before the validator
runs: the outcome is skip, no validation is performed and no error is
recorded, whatever the validator would have said. -/
theorem exclusion_precedes_validation (skipConfig : SkipConfigVal)
    (responsibleOrgNames : List String) (validator rejectOnInvalid : Bool)
    (st : Store) (force_import : Bool) (obj : NewObj) (gv : GeminiValues)
    (h : ∃ n ∈ exclusionSet skipConfig, n ∈ responsibleOrgNames) :
    import_gemini_object skipConfig responsibleOrgNames validator
        rejectOnInvalid st force_import obj gv =
      ⟨Outcome.skip, false, 0⟩ := by
  obtain ⟨n, hn1, hn2⟩ := h
  unfold exclusionSet at hn1
  have htruthy : skipTruthy skipConfig = true := by
    by_contra hb
    rw [if_neg hb] at hn1
    exact absurd hn1 (List.not_mem_nil n)
  rw [if_pos htruthy] at hn1
  have hint : (skipNames skipConfig).inter responsibleOrgNames ≠ [] :=
    List.ne_nil_of_mem (List.mem_inter_of_mem_of_mem hn1 hn2)
  unfold import_gemini_object
  rw [if_pos ⟨htruthy, hint⟩]

/-- Witness for C3: the single configured name matches one of the
document's organisations, and the document would fail validation. -/
theorem exclusion_precedes_validation_witness :
    import_gemini_object (SkipConfigVal.strV "Ordnance Survey")
        ["Met Office", "Ordnance Survey"] false true ⟨[], []⟩ false
        ⟨1, "guid-1", 1, none, "c", none, true⟩
        ⟨"dataset", "51", "50", "-1", "0", some 7, "T"⟩ =
      ⟨Outcome.skip, false, 0⟩ :=
  exclusion_precedes_validation (SkipConfigVal.strV "Ordnance Survey")
    ["Met Office", "Ordnance Survey"] false true ⟨[], []⟩ false
    ⟨1, "guid-1", 1, none, "c", none, true⟩
    ⟨"dataset", "51", "50", "-1", "0", some 7, "T"⟩
    ⟨"Ordnance Survey", by decide, by decide⟩

/-! ## C5: the ownership-transfer guard -/

/-- Claim C5 exactly as stated: whenever the prior current attempt's
package has a different owner organisation than the new source's publisher
and is not deleted, the outcome is a reject — with the GUID-collision
reason when the titles differ and the manual-transfer reason when they
match.  (Refuted below: the same-job duplicate guard fires first.) -/
def ownershipGuardClaim : Prop :=
  ∀ (st : Store) (force_import : Bool) (obj : NewObj) (gv : GeminiValues)
    (last : HObj) (pkg : Pkg),
    currentsFor st obj.guid = [last] →
    findPkg st.pkgs last.packageId = some pkg →
    pkg.ownerOrg ≠ obj.sourcePublisherId →
    pkg.state ≠ "deleted" →
    gv.metadataDate.isSome = true →
    ¬(gv.resourceType ≠ "nonGeographicDataset" ∧
      (gv.bboxNorthLat = gv.bboxSouthLat ∨
        gv.bboxWestLong = gv.bboxEastLong)) →
    ((pkg.title ≠ gv.title →
        write_package_from_gemini_string st force_import obj gv =
          Outcome.abort AbortReason.guidCollisionDifferentTitle) ∧
      (pkg.title = gv.title →
        write_package_from_gemini_string st force_import obj gv =
          Outcome.abort AbortReason.publisherTransfer))

/-- Counterexample state for C5: the prior current attempt belongs to the
same job as the new attempt (and no force-import), so the duplicate guard
rejects with the used-twice reason before the ownership guard is reached. -/
def c5Last : HObj := ⟨1, "g", 5, true, some 10, some 3, "X", true⟩

/-- Counterexample package for C5: different owner, different title. -/
def c5Pkg : Pkg := ⟨10, some 1, "active", "Other title"⟩

/-- Counterexample new attempt for C5: same job 5, publisher 2. -/
def c5Obj : NewObj := ⟨2, "g", 5, none, "Y", some 2, true⟩

/-- Counterexample document values for C5. -/
def c5Gv : GeminiValues := ⟨"dataset", "51", "50", "-1", "0", some 4, "T"⟩

/-- C5 as stated is false: at the concrete same-job input the outcome is
the used-twice-in-this-harvest reject, not the GUID-collision reject. -/
theorem ownership_guard_claim_counterexample : ¬ ownershipGuardClaim := by
  intro h
  have hc := (h ⟨[c5Last], [c5Pkg]⟩ false c5Obj c5Gv c5Last c5Pkg rfl rfl
    (by decide) (by decide) rfl (by decide)).1 (by decide)
  have he : write_package_from_gemini_string ⟨[c5Last], [c5Pkg]⟩ false
      c5Obj c5Gv = Outcome.abort AbortReason.usedTwiceInHarvest := rfl
  rw [he] at hc
  exact absurd hc (by decide)

/-- C5 (amended): with the extra premise that the prior current attempt is
not in the same job (or a force-import is underway), the ownership guard
behaves as claimed: always reject, GUID-collision reason when the titles
differ, manual-transfer reason when they match, and the store (hence the
existing catalog entry) is unchanged. -/
theorem ownership_guard_amended (st : Store) (force_import : Bool)
    (obj : NewObj) (gv : GeminiValues) (last : HObj) (pkg : Pkg)
    (hcur : currentsFor st obj.guid = [last])
    (hjob : ¬(last.jobId = obj.jobId ∧ force_import = false))
    (hfind : findPkg st.pkgs last.packageId = some pkg)
    (howner : pkg.ownerOrg ≠ obj.sourcePublisherId)
    (hdel : pkg.state ≠ "deleted")
    (hdate : gv.metadataDate.isSome = true)
    (hext : ¬(gv.resourceType ≠ "nonGeographicDataset" ∧
      (gv.bboxNorthLat = gv.bboxSouthLat ∨
        gv.bboxWestLong = gv.bboxEastLong))) :
    write_package_from_gemini_string st force_import obj gv =
        (if pkg.title ≠ gv.title then
          Outcome.abort AbortReason.guidCollisionDifferentTitle
        else Outcome.abort AbortReason.publisherTransfer) ∧
      resultStore (write_package_from_gemini_string st force_import obj gv)
        st = st := by
  have hmain : write_package_from_gemini_string st force_import obj gv =
      (if pkg.title ≠ gv.title then
        Outcome.abort AbortReason.guidCollisionDifferentTitle
      else Outcome.abort AbortReason.publisherTransfer) := by
    unfold write_package_from_gemini_string
    rw [if_neg hext]
    cases hgd : gv.metadataDate with
    | none =>
      rw [hgd] at hdate
      exact absurd hdate (by simp)
    | some d =>
      simp only [hcur]
      rw [if_neg hjob]
      simp only [hfind]
      rw [if_pos ⟨howner, hdel⟩]
  refine ⟨hmain, ?_⟩
  rw [hmain]
  split
  · rfl
  · rfl

/-- Witness for the amended C5: different jobs, different owners, different
titles — the GUID-collision reject, store unchanged. -/
theorem ownership_guard_amended_witness :
    write_package_from_gemini_string
        ⟨[⟨1, "g", 5, true, some 10, some 3, "X", true⟩],
          [⟨10, some 1, "active", "Other title"⟩]⟩ false
        ⟨2, "g", 6, none, "Y", some 2, true⟩
        ⟨"dataset", "51", "50", "-1", "0", some 4, "T"⟩ =
        (if (⟨10, some 1, "active", "Other title"⟩ : Pkg).title ≠
            (⟨"dataset", "51", "50", "-1", "0", some 4, "T"⟩ :
              GeminiValues).title then
          Outcome.abort AbortReason.guidCollisionDifferentTitle
        else Outcome.abort AbortReason.publisherTransfer) ∧
      resultStore
        (write_package_from_gemini_string
          ⟨[⟨1, "g", 5, true, some 10, some 3, "X", true⟩],
            [⟨10, some 1, "active", "Other title"⟩]⟩ false
          ⟨2, "g", 6, none, "Y", some 2, true⟩
          ⟨"dataset", "51", "50", "-1", "0", some 4, "T"⟩)
        ⟨[⟨1, "g", 5, true, some 10, some 3, "X", true⟩],
          [⟨10, some 1, "active", "Other title"⟩]⟩ =
        ⟨[⟨1, "g", 5, true, some 10, some 3, "X", true⟩],
          [⟨10, some 1, "active", "Other title"⟩]⟩ :=
  ownership_guard_amended
    ⟨[⟨1, "g", 5, true, some 10, some 3, "X", true⟩],
      [⟨10, some 1, "active", "Other title"⟩]⟩ false
    ⟨2, "g", 6, none, "Y", some 2, true⟩
    ⟨"dataset", "51", "50", "-1", "0", some 4, "T"⟩
    ⟨1, "g", 5, true, some 10, some 3, "X", true⟩
    ⟨10, some 1, "active", "Other title"⟩
    rfl (by decide) rfl (by decide) (by decide) rfl (by decide)

/-! ## C2: the staleness / update decision -/

/-- The three outcomes the staleness decision distinguishes. -/
inductive DecisionTag
  | update
  | skip
  | reject
deriving DecidableEq, Repr

/-- Classify an import outcome as the staleness decision sees it: an
update (success over an existing package), a skip, or the
content-changed-without-date-bump reject. -/
def tagOfOutcome : Outcome → Option DecisionTag
  | Outcome.success false _ _ => some DecisionTag.update
  | Outcome.skip => some DecisionTag.skip
  | Outcome.abort AbortReason.contentChangedDateNot => some DecisionTag.reject
  | _ => none

/-- Spec-side decision table of the amended claim C2: update when the prior
attempt has no date, or its date is strictly earlier, or the import is
forced, or the dates are equal and the prior source inactive — except that
a package in the deleted state additionally requires the prior date to be
strictly earlier (else skip); otherwise skip, unless the dates are exactly
equal and the content differs, which is the reject. -/
def amendedStalenessDecision (force_import : Bool) (lastDate : Option Int)
    (lastContent : String) (lastSourceActive : Bool) (pkgState : String)
    (newDate : Int) (newContent : String) : DecisionTag :=
  if lastDate = none ∨ pyLtDate lastDate newDate = true ∨
      force_import = true ∨
      (lastDate = some newDate ∧ lastSourceActive = false) then
    if pkgState = "deleted" then
      if pyLtDate lastDate newDate = true then DecisionTag.update
      else DecisionTag.skip
    else DecisionTag.update
  else
    if newContent ≠ lastContent ∧ lastDate = some newDate then
      DecisionTag.reject
    else DecisionTag.skip

/-- Claim C2 exactly as stated: for a prior current attempt with the same
owner in a different job, the outcome is update exactly under the
four-way staleness condition, and otherwise — new date equal or earlier,
not forced — skip unless the content differs, in which case reject.
(Refuted below: a strictly earlier new date with different content is
skipped, not rejected.) -/
def stalenessClaim : Prop :=
  ∀ (st : Store) (force_import : Bool) (obj : NewObj) (gv : GeminiValues)
    (last : HObj) (pkg : Pkg) (d : Int),
    currentsFor st obj.guid = [last] →
    last.jobId ≠ obj.jobId →
    findPkg st.pkgs last.packageId = some pkg →
    pkg.ownerOrg = obj.sourcePublisherId →
    gv.metadataDate = some d →
    ¬(gv.resourceType ≠ "nonGeographicDataset" ∧
      (gv.bboxNorthLat = gv.bboxSouthLat ∨
        gv.bboxWestLong = gv.bboxEastLong)) →
    (((∃ r s, write_package_from_gemini_string st force_import obj gv =
        Outcome.success false r s) ↔
      (last.metadataModifiedDate = none ∨
        pyLtDate last.metadataModifiedDate d = true ∨
        force_import = true ∨
        (last.metadataModifiedDate = some d ∧
          last.sourceActive = false))) ∧
    (∀ m : Int, last.metadataModifiedDate = some m → d ≤ m →
      force_import = false →
      ((obj.content ≠ last.content →
          ∃ r, write_package_from_gemini_string st force_import obj gv =
            Outcome.abort r) ∧
        (obj.content = last.content →
          write_package_from_gemini_string st force_import obj gv =
            Outcome.skip))))

/-- Counterexample prior attempt for C2: current, date 5, content "X". -/
def c2Last : HObj := ⟨1, "g", 5, true, some 10, some 5, "X", true⟩

/-- Counterexample package for C2: same owner as the new source. -/
def c2Pkg : Pkg := ⟨10, some 1, "active", "T"⟩

/-- Counterexample new attempt for C2: different job, content "Y". -/
def c2Obj : NewObj := ⟨2, "g", 6, none, "Y", some 1, true⟩

/-- Counterexample document values for C2: metadata date 3, strictly
earlier than the prior date 5. -/
def c2Gv : GeminiValues := ⟨"dataset", "51", "50", "-1", "0", some 3, "T"⟩

/-- C2 as stated is false: at the concrete input — new date 3 strictly
earlier than the prior date 5, content changed, not forced — the code
skips, while the claim demands a reject. -/
theorem staleness_claim_counterexample : ¬ stalenessClaim := by
  intro h
  obtain ⟨r, hr⟩ := ((h ⟨[c2Last], [c2Pkg]⟩ false c2Obj c2Gv c2Last c2Pkg 3
    rfl (by decide) rfl rfl rfl (by decide)).2 5 rfl (by decide) rfl).1
    (by decide)
  have he : write_package_from_gemini_string ⟨[c2Last], [c2Pkg]⟩ false
      c2Obj c2Gv = Outcome.skip := rfl
  rw [he] at hr
  exact Outcome.noConfusion hr

/-- C2 (amended): for a prior current attempt with the same owner in a
different job, the outcome follows `amendedStalenessDecision`: update
exactly when the staleness condition holds and, for a deleted package, the
prior date is strictly earlier than the new one; otherwise skip, unless
the dates are exactly equal and the raw content differs, which rejects —
a strictly earlier new date with changed content is skipped, not
rejected. -/
theorem staleness_decision_amended (st : Store) (force_import : Bool)
    (obj : NewObj) (gv : GeminiValues) (last : HObj) (pkg : Pkg) (d : Int)
    (hcur : currentsFor st obj.guid = [last])
    (hjob : last.jobId ≠ obj.jobId)
    (hfind : findPkg st.pkgs last.packageId = some pkg)
    (howner : pkg.ownerOrg = obj.sourcePublisherId)
    (hdate : gv.metadataDate = some d)
    (hext : ¬(gv.resourceType ≠ "nonGeographicDataset" ∧
      (gv.bboxNorthLat = gv.bboxSouthLat ∨
        gv.bboxWestLong = gv.bboxEastLong))) :
    tagOfOutcome (write_package_from_gemini_string st force_import obj gv) =
      some (amendedStalenessDecision force_import
        last.metadataModifiedDate last.content last.sourceActive pkg.state
        d obj.content) := by
  unfold write_package_from_gemini_string
  rw [if_neg hext]
  simp only [hdate]
  simp only [hcur]
  rw [if_neg (fun hc => hjob hc.1)]
  simp only [hfind]
  rw [if_neg (fun hc => hc.1 howner)]
  unfold amendedStalenessDecision
  split
  · split
    · split
      · rfl
      · rfl
    · rfl
  · split
    · rfl
    · rfl

/-- Witness for the amended C2 at the counterexample input: the decision
table gives skip, and the code skips. -/
theorem staleness_decision_amended_witness :
    tagOfOutcome (write_package_from_gemini_string ⟨[c2Last], [c2Pkg]⟩
        false c2Obj c2Gv) =
      some (amendedStalenessDecision false c2Last.metadataModifiedDate
        c2Last.content c2Last.sourceActive c2Pkg.state 3 c2Obj.content) :=
  staleness_decision_amended ⟨[c2Last], [c2Pkg]⟩ false c2Obj c2Gv c2Last
    c2Pkg 3 rfl (by decide) rfl rfl rfl (by decide)

end GeminiHarvest
